import Mathlib

/-!
Verification development for the TabarekIPTV data-access core.

The definitions below are a shallow embedding of the two data-access files
of the repository:

* `src/src/services/xtream.ts` — retrying fetcher, response cache,
  in-flight request deduplication, provider-client operations;
* `src/src/services/db.ts` — persistent progress store over a JSON string
  in `localStorage`.

JavaScript values are modelled as follows: JSON payloads by the inductive
`Json`; JavaScript `Error` objects by their `name`/`message` fields
(`JsError`); JavaScript numbers by `JsNum` (an integer or `NaN`; the
infinities play no role in any claim and behave like ordinary comparable
numbers in the operations modelled here); the asynchronous event loop by
explicit interleaving of the synchronous prefixes of the service methods
(`startGetLiveStreams` and friends), which is sound because the runtime is
single-threaded and every mutation of the cache or of the pending-request
registry happens inside one synchronous block.
-/

namespace TabarekIPTV

/-! ### JSON payloads and JavaScript errors -/

/-- A JSON value, at the granularity needed by the fetch layer.  Objects are
not distinguished further because no claim inspects object fields of a
fetched payload. -/
inductive Json where
  | null
  | bool (b : Bool)
  | num (n : Int)
  | str (s : String)
  | arr (elems : List Json)

/-- A JavaScript `Error` as observed by `fetchWithRetry`: only `name` is
inspected by the code (`error.name === 'AbortError'`), `message` carries the
text. -/
structure JsError where
  name : String
  message : String
deriving DecidableEq

/-- JavaScript truthiness for the `Json` values above (`if (cached) ...`). -/
def truthy : Json → Bool
  | .null => false
  | .bool b => b
  | .num n => n != 0
  | .str s => s != ""
  | .arr _ => true

/-! ### Retrying fetcher (`XtreamService.fetchWithRetry`, xtream.ts 88, 135–162) -/

/-- `private retryDelays = [1000, 2000, 5000]` (milliseconds). -/
def retryDelays : List Nat := [1000, 2000, 5000]

/-- The outcome of one physical attempt, i.e. of one `fetch` call:
either `fetch` itself throws (transport failure or abort), or it yields a
response with an `ok` flag, a status code, and a body whose JSON parse
(`response.json()`) either succeeds or throws. -/
inductive AttemptOutcome where
  | fetchThrow (e : JsError)
  | response (ok : Bool) (status : Nat) (body : Except JsError Json)

/-- What one iteration of the `try` block produces before the `catch`:
a transport throw propagates; a non-ok response throws
`new Error("HTTP error! status: " + status)` (a JS `Error` has name
`"Error"`); an ok response yields the result of `response.json()`. -/
def attemptResult : AttemptOutcome → Except JsError Json
  | .fetchThrow e => .error e
  | .response ok status body =>
      if ok then body
      else .error ⟨"Error", "HTTP error! status: " ++ toString status⟩

/-- The observable behaviour of one `fetchWithRetry` call: its final result,
the sequence of `setTimeout` delays it waited, and how many physical
attempts it made. -/
structure FetchRun where
  result : Except JsError Json
  delays : List Nat
  attempts : Nat

/-- Shallow embedding of `fetchWithRetry(url, options, retryCount)`.  The
network is abstracted as an oracle giving the outcome of the n-th physical
attempt (attempt numbering coincides with `retryCount`, which starts at 0
and is incremented on every recursive call).  On a failure whose error name
is `"AbortError"` the error is rethrown at once; otherwise, while
`retryCount < retryDelays.length`, the code waits `retryDelays[retryCount]`
and recurses; after the budget it rethrows the last error. -/
def fetchWithRetry (oracle : Nat → AttemptOutcome) (retryCount : Nat) : FetchRun :=
  match attemptResult (oracle retryCount) with
  | .ok v => ⟨.ok v, [], 1⟩
  | .error e =>
      if e.name = "AbortError" then ⟨.error e, [], 1⟩
      else if h : retryCount < retryDelays.length then
        let rest := fetchWithRetry oracle (retryCount + 1)
        ⟨rest.result, retryDelays.get ⟨retryCount, h⟩ :: rest.delays, rest.attempts + 1⟩
      else ⟨.error e, [], 1⟩
termination_by retryDelays.length - retryCount
decreasing_by omega

/-! ### Response cache (`XtreamService.cache`, xtream.ts 76–133, 266–273)

The JS `Map<string, CacheEntry>` is modelled as an association list whose
well-formed states (the only ones reachable through `mapSet`/`mapDelete`
from the empty map) have pairwise distinct keys; `mapGet` returns the first
binding, `mapSet` replaces in place or appends, `mapDelete` removes the
key's bindings. -/

/-- `interface CacheEntry<T> { data; timestamp; expiresAt }`. -/
structure CacheEntry where
  data : Json
  timestamp : Nat
  expiresAt : Nat

/-- The `Map` holding the cache. -/
abbrev Cache := List (String × CacheEntry)

/-- `Map.get`. -/
def mapGet : Cache → String → Option CacheEntry
  | [], _ => none
  | kv :: rest, k => if kv.1 = k then some kv.2 else mapGet rest k

/-- `Map.set`. -/
def mapSet : Cache → String → CacheEntry → Cache
  | [], k, e => [(k, e)]
  | kv :: rest, k, e => if kv.1 = k then (k, e) :: rest else kv :: mapSet rest k e

/-- `Map.delete`. -/
def mapDelete (c : Cache) (k : String) : Cache :=
  c.filter (fun kv => kv.1 != k)

/-- `cacheGet` (xtream.ts 114–124): a missing entry yields `null`; an entry
with `expiresAt <= Date.now()` is deleted and yields `null`; otherwise the
data is returned.  The current time is passed explicitly; the returned pair
is (result, cache after the call). -/
def cacheGet (c : Cache) (key : String) (now : Nat) : Option Json × Cache :=
  match mapGet c key with
  | none => (none, c)
  | some entry =>
      if entry.expiresAt ≤ now then (none, mapDelete c key)
      else (some entry.data, c)

/-- `cacheSet` (xtream.ts 126–133): stores `{data, timestamp: now, expiresAt: now + duration}`. -/
def cacheSet (c : Cache) (key : String) (data : Json) (duration : Nat) (now : Nat) : Cache :=
  mapSet c key ⟨data, now, now + duration⟩

/-- `cleanCache` (xtream.ts 105–112): the periodic sweep deletes every entry
with `expiresAt <= now`. -/
def cleanCache (c : Cache) (now : Nat) : Cache :=
  c.filter (fun kv => ! decide (kv.2.expiresAt ≤ now))

/-- JavaScript `String.prototype.startsWith`. -/
def jsStartsWith (s pre : String) : Bool :=
  pre.data.isPrefixOf s.data

/-- `clearCache(type)` (xtream.ts 267–273): deletes every entry whose key
starts with the given type string. -/
def clearCache (c : Cache) (type : String) : Cache :=
  c.filter (fun kv => ! jsStartsWith kv.1 type)

/-- `CACHE_DURATION.epg` (xtream.ts 92). -/
def CACHE_DURATION_epg : Nat := 5 * 60 * 1000

/-- `CACHE_DURATION.movieInfo` (xtream.ts 93). -/
def CACHE_DURATION_movieInfo : Nat := 30 * 60 * 1000

/-- `CACHE_DURATION.streams` (xtream.ts 94). -/
def CACHE_DURATION_streams : Nat := 10 * 60 * 1000

/-- Cache key of `getLiveStreams` (xtream.ts 181): `streams_${category_id || 'all'}`;
an absent or empty (falsy) category id yields the sentinel `all`. -/
def streamsCacheKey (category_id : Option String) : String :=
  "streams_" ++ match category_id with
    | some c => if c = "" then "all" else c
    | none => "all"

/-- Cache key of `getEPG` (xtream.ts 214): `epg_${stream_id}_${limit}`. -/
def epgCacheKey (stream_id : String) (limit : Nat) : String :=
  "epg_" ++ stream_id ++ "_" ++ toString limit

/-- Cache key of `getMovieInfo` (xtream.ts 231): `movie_${movie_id}`. -/
def movieCacheKey (movie_id : String) : String :=
  "movie_" ++ movie_id

/-! ### Concurrent callers of the provider client (xtream.ts 180–244)

The runtime is a single-threaded event loop, so the synchronous prefix of
each method call (everything up to its first `await`) runs atomically.  N
concurrent callers that all start before any network call settles are
therefore modelled as N consecutive applications of the method's
synchronous prefix to the shared service state. -/

/-- The parts of the `XtreamService` instance state that the list/EPG/movie
methods touch, plus a log of the upstream network calls issued (one entry
per `fetchWithRetry` invocation, recording the logical cache key). -/
structure SvcState where
  cache : Cache
  pending : List String
  upstream : List String

/-- What the synchronous prefix of a method call hands its caller: a cached
value returned at once, an already-pending shared promise that the caller
will await (`joined`), or a fresh upstream call whose promise the caller
awaits (`newCall`); the `String` identifies the awaited promise. -/
inductive StartOutcome where
  | cachedValue (v : Json)
  | joined (promiseKey : String)
  | newCall (promiseKey : String)

/-- The dedup-then-fetch tail of `getLiveStreams` (xtream.ts 185–210): look
up `pending_${cacheKey}` in `pendingRequests`; if present, return that
promise; otherwise issue the upstream call and register its promise before
returning it. -/
def startFetchStreams (s : SvcState) (cacheKey : String) : StartOutcome × SvcState :=
  let pendingKey := "pending_" ++ cacheKey
  if pendingKey ∈ s.pending then (.joined pendingKey, s)
  else (.newCall pendingKey,
    { s with pending := pendingKey :: s.pending, upstream := s.upstream ++ [cacheKey] })

/-- Synchronous prefix of `getLiveStreams` (xtream.ts 180–210): cache lookup
(`if (cached) return cached` — JS truthiness), then in-flight deduplication,
then the upstream call. -/
def startGetLiveStreams (s : SvcState) (category_id : Option String) (now : Nat) :
    StartOutcome × SvcState :=
  let r := cacheGet s.cache (streamsCacheKey category_id) now
  let s1 : SvcState := { s with cache := r.2 }
  match r.1 with
  | some v => if truthy v then (.cachedValue v, s1)
              else startFetchStreams s1 (streamsCacheKey category_id)
  | none => startFetchStreams s1 (streamsCacheKey category_id)

/-- A cache-miss in `getEPG` and `getMovieInfo` issues the upstream call
directly: those methods have no pending-request registry (xtream.ts 225, 241). -/
def startFetchDirect (s : SvcState) (cacheKey : String) : StartOutcome × SvcState :=
  (.newCall cacheKey, { s with upstream := s.upstream ++ [cacheKey] })

/-- Synchronous prefix of `getEPG` (xtream.ts 213–228): cache lookup, then
an unconditional upstream call on a miss. -/
def startGetEPG (s : SvcState) (stream_id : String) (limit : Nat) (now : Nat) :
    StartOutcome × SvcState :=
  let r := cacheGet s.cache (epgCacheKey stream_id limit) now
  let s1 : SvcState := { s with cache := r.2 }
  match r.1 with
  | some v => if truthy v then (.cachedValue v, s1)
              else startFetchDirect s1 (epgCacheKey stream_id limit)
  | none => startFetchDirect s1 (epgCacheKey stream_id limit)

/-- Synchronous prefix of `getMovieInfo` (xtream.ts 230–244): cache lookup,
then an unconditional upstream call on a miss. -/
def startGetMovieInfo (s : SvcState) (movie_id : String) (now : Nat) :
    StartOutcome × SvcState :=
  let r := cacheGet s.cache (movieCacheKey movie_id) now
  let s1 : SvcState := { s with cache := r.2 }
  match r.1 with
  | some v => if truthy v then (.cachedValue v, s1)
              else startFetchDirect s1 (movieCacheKey movie_id)
  | none => startFetchDirect s1 (movieCacheKey movie_id)

/-- Settlement of the shared `getLiveStreams` request (xtream.ts 198–207):
on success the data is cached and the pending registration removed, on
failure only the registration is removed. -/
def settleStreams (s : SvcState) (cacheKey : String) (outcome : Except JsError Json)
    (now : Nat) : SvcState :=
  match outcome with
  | .ok data =>
      { s with cache := cacheSet s.cache cacheKey data CACHE_DURATION_streams now,
               pending := s.pending.erase ("pending_" ++ cacheKey) }
  | .error _ => { s with pending := s.pending.erase ("pending_" ++ cacheKey) }

/-- The value a caller eventually observes, given how its start step ended
and the settled result of each promise. -/
def callerResult (o : StartOutcome) (settled : String → Except JsError Json) :
    Except JsError Json :=
  match o with
  | .cachedValue v => .ok v
  | .joined k => settled k
  | .newCall k => settled k

/-- `runStarts f n s`: n concurrent callers issue the same logical operation
`f`; their synchronous prefixes run back to back (no await point separates
them from each other). -/
def runStarts (f : SvcState → StartOutcome × SvcState) : Nat → SvcState → List StartOutcome × SvcState
  | 0, s => ([], s)
  | n + 1, s =>
      let r := f s
      let rest := runStarts f n r.2
      (r.1 :: rest.1, rest.2)

/-! ### Persistent progress store (`Database`, db.ts)

The durable medium is the single `localStorage` slot under
`tabarek_iptv_progress`.  `Medium` captures the states the code
distinguishes: key absent, a string that `JSON.parse` rejects, a parsed
value that is not an array, and a parsed array of items.  An array item is
`null` (property access throws a `TypeError`), some other primitive
(property access yields `undefined`), or an object carrying the five record
fields.  Record fields keep the types the TypeScript interface gives them
except that `type` may be an arbitrary string (so invalid stored records are
representable); `position`, `duration` and `timestamp` are JS numbers
(`typeof _ === 'number'` holds for them, including for `NaN`). -/

/-- A JavaScript number as used by the progress store: an integer or `NaN`.
(The infinities behave like ordinary comparable numbers in every operation
modelled here, so they are not distinguished.) -/
inductive JsNum where
  | finite (q : Int)
  | nan
deriving DecidableEq

/-- `Math.max(0, x)`: `NaN` propagates, otherwise the larger value. -/
def jsMax0 : JsNum → JsNum
  | .nan => .nan
  | .finite q => .finite (if 0 ≤ q then q else 0)

/-- The JS comparison `x >= 0` on a number: false for `NaN`. -/
def nonNegNum : JsNum → Bool
  | .finite q => decide (0 ≤ q)
  | .nan => false

/-- A stored progress object: `{type, id, position, duration, timestamp}`
(db.ts 1–7). -/
structure ProgressRec where
  type : String
  id : String
  position : JsNum
  duration : JsNum
  timestamp : JsNum
deriving DecidableEq

/-- One element of the stored array. -/
inductive Item where
  | jnull
  | prim
  | obj (p : ProgressRec)
deriving DecidableEq

/-- The durable medium. -/
inductive Medium where
  | empty
  | corrupt
  | nonArray
  | stored (items : List Item)
deriving DecidableEq

/-- `MAX_ENTRIES` (db.ts 11). -/
def MAX_ENTRIES : Nat := 100

/-- `getAll` (db.ts 20–36): absent key, a parse failure and a non-array
parse all degrade to `[]`; an array is returned as is, with no per-element
validation on the read path. -/
def getAll : Medium → List Item
  | .stored xs => xs
  | _ => []

/-- The per-item validation predicate of `saveAll` (db.ts 48–55): the item
must be truthy, its `id` a string, its `position`, `duration` and
`timestamp` numbers, and its `type` the string `movie` or `series`.  `null`
fails the truthiness test; a non-object primitive either is falsy or has
`undefined` fields; a record passes the `typeof` tests by the shape of
`ProgressRec`, leaving exactly the `type` test. -/
def validItem : Item → Bool
  | .obj p => p.type = "movie" || p.type = "series"
  | _ => false

/-- `saveAll` (db.ts 38–62): keeps the last `MAX_ENTRIES` elements
(`data.slice(-MAX_ENTRIES)`), filters them through the validation
predicate, and overwrites the medium with the result.  The input is a list,
so the `Array.isArray` throw path is unreachable, and the medium of this
model never fails a write, so `saveAll` always commits. -/
def saveAll (data : List Item) : Medium :=
  .stored ((data.drop (data.length - MAX_ENTRIES)).filter validItem)

/-- `data.find(item => item.type === type && item.id === id)` (db.ts 96) and
the scan of `findIndex` (db.ts 72): the predicate is applied left to right;
reading `item.type` of `null` throws a `TypeError` (modelled as
`Except.error ()`); on a non-null primitive the fields are `undefined` and
the predicate is false. -/
def findMatch : List Item → String → String → Except Unit (Option ProgressRec)
  | [], _, _ => .ok none
  | .jnull :: _, _, _ => .error ()
  | .prim :: rest, type, id => findMatch rest type id
  | .obj p :: rest, type, id =>
      if p.type = type && p.id = id then .ok (some p)
      else findMatch rest type id

/-- The `findIndex`-then-`splice` step of `saveProgress` (db.ts 72–75):
remove the first matching element, scanning left to right with the same
predicate (and the same `TypeError` on a `null` element); if no element
matches, the whole list is scanned and kept. -/
def removeFirstMatch : List Item → String → String → Except Unit (List Item)
  | [], _, _ => .ok []
  | .jnull :: _, _, _ => .error ()
  | .prim :: rest, type, id =>
      match removeFirstMatch rest type id with
      | .ok l => .ok (.prim :: l)
      | .error e => .error e
  | .obj p :: rest, type, id =>
      if p.type = type && p.id = id then .ok rest
      else
        match removeFirstMatch rest type id with
        | .ok l => .ok (.obj p :: l)
        | .error e => .error e

/-- `saveProgress` (db.ts 64–87): the `typeof` guards hold by typing;
read everything, drop the existing record for the same `(type, id)`, append
the new record with `Math.max(0, ...)` applied to position and duration and
the current time as timestamp, and commit through `saveAll`.  The function
has no `try`/`catch`, so a `TypeError` thrown while scanning propagates. -/
def saveProgress (m : Medium) (type id : String) (position duration : JsNum)
    (now : Int) : Except Unit Medium :=
  match removeFirstMatch (getAll m) type id with
  | .error e => .error e
  | .ok data =>
      .ok (saveAll (data ++ [.obj ⟨type, id, jsMax0 position, jsMax0 duration, .finite now⟩]))

/-- The body of the `try` block of `getProgress` (db.ts 90–97): an empty id
is falsy and throws `Invalid ID`; otherwise the first matching record's
position is returned through `Math.max(0, ...)`, or 0 when no record
matches. -/
def getProgressInner (m : Medium) (type id : String) : Except Unit JsNum :=
  if id = "" then .error ()
  else
    match findMatch (getAll m) type id with
    | .error e => .error e
    | .ok (some p) => .ok (jsMax0 p.position)
    | .ok none => .ok (.finite 0)

/-- `getProgress` (db.ts 89–102): the whole body is wrapped in
`try`/`catch`, and the catch returns 0. -/
def getProgress (m : Medium) (type id : String) : JsNum :=
  match getProgressInner m type id with
  | .ok v => v
  | .error _ => .finite 0

/-- `XtreamService.getWatchProgress` (xtream.ts 262–264): a pass-through to
`Database.getProgress`. -/
def getWatchProgress (m : Medium) (type id : String) : JsNum :=
  getProgress m type id

/-! ### Spec-side shape predicate and concrete oracles -/

/-- The expected top-level JSON shape of a `listLiveStreams` response,
written from the spec: responses are "JSON bodies matching the structures
in §3", and a live-streams response is an array of stream descriptors.
Used only to compare the code's (absent) decode validation against the
spec; the code never evaluates this predicate. -/
def specStreamListShape : Json → Bool
  | .arr _ => true
  | _ => false

/-- An endpoint whose every attempt yields HTTP 500. -/
def alwaysFailOracle : Nat → AttemptOutcome :=
  fun _ => .response false 500 (.error ⟨"SyntaxError", "Unexpected token"⟩)

/-- An endpoint that answers 200 with a JSON body that is not an array. -/
def wrongShapeOracle : Nat → AttemptOutcome :=
  fun _ => .response true 200 (.ok (.str "oops"))

/-- An endpoint failing with HTTP 500 twice, after which the caller's abort
is observed. -/
def abortAtTwoOracle : Nat → AttemptOutcome :=
  fun n =>
    if n < 2 then .response false 500 (.error ⟨"SyntaxError", "Unexpected token"⟩)
    else .fetchThrow ⟨"AbortError", "The operation was aborted"⟩

/-! ### Unfolding lemmas for `fetchWithRetry` -/

/-- A successful attempt returns its decoded body at once. -/
theorem fetch_ok_step (oracle : Nat → AttemptOutcome) (rc : Nat) (v : Json)
    (h : attemptResult (oracle rc) = .ok v) :
    fetchWithRetry oracle rc = ⟨.ok v, [], 1⟩ := by
  rw [fetchWithRetry.eq_def, h]

/-- An attempt failing with an `AbortError` rethrows at once. -/
theorem fetch_abort_step (oracle : Nat → AttemptOutcome) (rc : Nat) (e : JsError)
    (h : attemptResult (oracle rc) = .error e) (hn : e.name = "AbortError") :
    fetchWithRetry oracle rc = ⟨.error e, [], 1⟩ := by
  rw [fetchWithRetry.eq_def, h]
  simp [hn]

/-- A non-abort failure inside the retry budget waits the scheduled delay
and recurses. -/
theorem fetch_retry_step (oracle : Nat → AttemptOutcome) (rc : Nat) (e : JsError)
    (hrc : rc < retryDelays.length)
    (h : attemptResult (oracle rc) = .error e) (hn : e.name ≠ "AbortError") :
    fetchWithRetry oracle rc
      = ⟨(fetchWithRetry oracle (rc + 1)).result,
         retryDelays.get ⟨rc, hrc⟩ :: (fetchWithRetry oracle (rc + 1)).delays,
         (fetchWithRetry oracle (rc + 1)).attempts + 1⟩ := by
  rw [fetchWithRetry.eq_def, h]
  simp [hn, hrc]

/-- A non-abort failure past the retry budget rethrows the last error. -/
theorem fetch_exhaust_step (oracle : Nat → AttemptOutcome) (rc : Nat) (e : JsError)
    (hrc : ¬ rc < retryDelays.length)
    (h : attemptResult (oracle rc) = .error e) (hn : e.name ≠ "AbortError") :
    fetchWithRetry oracle rc = ⟨.error e, [], 1⟩ := by
  rw [fetchWithRetry.eq_def, h]
  simp [hn, hrc]

/-- Every run makes at least one attempt. -/
theorem fetch_attempts_pos (oracle : Nat → AttemptOutcome) (rc : Nat) :
    1 ≤ (fetchWithRetry oracle rc).attempts := by
  cases h : attemptResult (oracle rc) with
  | error e =>
      by_cases hn : e.name = "AbortError"
      · rw [fetch_abort_step oracle rc e h hn]
      · by_cases hrc : rc < retryDelays.length
        · rw [fetch_retry_step oracle rc e hrc h hn]
          exact Nat.le_add_left 1 _
        · rw [fetch_exhaust_step oracle rc e hrc h hn]
  | ok v => rw [fetch_ok_step oracle rc v h]

/-! ### Claim C2: retry budget -/

/-- Claim C2: if every attempt fails with a non-cancellation error, the
fetcher makes exactly 4 attempts (1 initial + 3 retries), waits 1s, 2s and
5s between successive attempts, and fails with the error observed on the
last (fourth) attempt. -/
theorem c2_retry_budget (oracle : Nat → AttemptOutcome)
    (hfail : ∀ n, ∃ e, attemptResult (oracle n) = .error e ∧ e.name ≠ "AbortError") :
    ∃ e, attemptResult (oracle 3) = .error e ∧
      fetchWithRetry oracle 0 = ⟨.error e, [1000, 2000, 5000], 4⟩ := by
  obtain ⟨e0, h0, n0⟩ := hfail 0
  obtain ⟨e1, h1, n1⟩ := hfail 1
  obtain ⟨e2, h2, n2⟩ := hfail 2
  obtain ⟨e3, h3, n3⟩ := hfail 3
  have H3 : fetchWithRetry oracle 3 = ⟨.error e3, [], 1⟩ :=
    fetch_exhaust_step oracle 3 e3 (by decide) h3 n3
  have H2 : fetchWithRetry oracle 2 = ⟨.error e3, [5000], 2⟩ := by
    rw [fetch_retry_step oracle 2 e2 (by decide) h2 n2,
        show (2 : Nat) + 1 = 3 from rfl, H3]
    rfl
  have H1 : fetchWithRetry oracle 1 = ⟨.error e3, [2000, 5000], 3⟩ := by
    rw [fetch_retry_step oracle 1 e1 (by decide) h1 n1,
        show (1 : Nat) + 1 = 2 from rfl, H2]
    rfl
  have H0 : fetchWithRetry oracle 0 = ⟨.error e3, [1000, 2000, 5000], 4⟩ := by
    rw [fetch_retry_step oracle 0 e0 (by decide) h0 n0,
        show (0 : Nat) + 1 = 1 from rfl, H1]
    rfl
  exact ⟨e3, h3, H0⟩

/-- Claim C2 witness: the always-500 endpoint runs the budget out. -/
theorem c2_retry_budget_witness :
    ∃ e, attemptResult (alwaysFailOracle 3) = .error e ∧
      fetchWithRetry alwaysFailOracle 0 = ⟨.error e, [1000, 2000, 5000], 4⟩ :=
  c2_retry_budget alwaysFailOracle
    (fun _ => ⟨⟨"Error", "HTTP error! status: 500"⟩, rfl, by decide⟩)

/-! ### Claim C6: cancellation precedence -/

/-- Claim C6: if the attempts before the k-th fail with non-cancellation
errors and the k-th attempt (still within the retry budget) fails because
the caller cancelled, the abort error propagates as is — with its distinct
`AbortError` name, not as retry exhaustion — after exactly k+1 attempts, so
no further attempts are made. -/
theorem c6_cancellation (oracle : Nat → AttemptOutcome) (k : Nat) (e : JsError)
    (hk : k ≤ retryDelays.length)
    (hfail : ∀ j, j < k → ∃ e2, attemptResult (oracle j) = .error e2 ∧ e2.name ≠ "AbortError")
    (habort : attemptResult (oracle k) = .error e)
    (hname : e.name = "AbortError") :
    fetchWithRetry oracle 0 = ⟨.error e, retryDelays.take k, k + 1⟩ := by
  have hk3 : k ≤ 3 := by simpa [retryDelays] using hk
  interval_cases k
  · exact fetch_abort_step oracle 0 e habort hname
  · obtain ⟨e0, h0, n0⟩ := hfail 0 (by omega)
    rw [fetch_retry_step oracle 0 e0 (by decide) h0 n0,
        show (0 : Nat) + 1 = 1 from rfl,
        fetch_abort_step oracle 1 e habort hname]
    rfl
  · obtain ⟨e0, h0, n0⟩ := hfail 0 (by omega)
    obtain ⟨e1, h1, n1⟩ := hfail 1 (by omega)
    rw [fetch_retry_step oracle 0 e0 (by decide) h0 n0,
        show (0 : Nat) + 1 = 1 from rfl,
        fetch_retry_step oracle 1 e1 (by decide) h1 n1,
        show (1 : Nat) + 1 = 2 from rfl,
        fetch_abort_step oracle 2 e habort hname]
    rfl
  · obtain ⟨e0, h0, n0⟩ := hfail 0 (by omega)
    obtain ⟨e1, h1, n1⟩ := hfail 1 (by omega)
    obtain ⟨e2, h2, n2⟩ := hfail 2 (by omega)
    rw [fetch_retry_step oracle 0 e0 (by decide) h0 n0,
        show (0 : Nat) + 1 = 1 from rfl,
        fetch_retry_step oracle 1 e1 (by decide) h1 n1,
        show (1 : Nat) + 1 = 2 from rfl,
        fetch_retry_step oracle 2 e2 (by decide) h2 n2,
        show (2 : Nat) + 1 = 3 from rfl,
        fetch_abort_step oracle 3 e habort hname]
    rfl

/-- Claim C6 witness: cancelling on the third attempt, after two transient
failures, yields the abort error after exactly 3 attempts and the two
scheduled waits. -/
theorem c6_cancellation_witness :
    fetchWithRetry abortAtTwoOracle 0
      = ⟨.error ⟨"AbortError", "The operation was aborted"⟩, [1000, 2000], 3⟩ :=
  c6_cancellation abortAtTwoOracle 2 ⟨"AbortError", "The operation was aborted"⟩
    (by decide)
    (fun j hj => by
      match j, hj with
      | 0, _ => exact ⟨⟨"Error", "HTTP error! status: 500"⟩, rfl, by decide⟩
      | 1, _ => exact ⟨⟨"Error", "HTTP error! status: 500"⟩, rfl, by decide⟩)
    rfl rfl

/-! ### Claim C3: decode errors -/

/-- Claim C3 counterexample: a 200 response whose JSON body is the string
`"oops"` — which does not match the expected array-of-streams shape — is
returned as the successful result of the fetch, after a single attempt and
with no failure surfaced: the mismatching body is coerced into a returned
result, contradicting the claim. -/
theorem c3_counterexample :
    fetchWithRetry wrongShapeOracle 0 = ⟨.ok (.str "oops"), [], 1⟩ ∧
    specStreamListShape (.str "oops") = false :=
  ⟨fetch_ok_step wrongShapeOracle 0 (.str "oops") rfl, rfl⟩

/-- Claim C3 amended: the fetcher performs no response-shape validation —
any successful (2xx) attempt whose body parses as JSON is returned as is,
whatever its shape; and a 2xx response whose body fails to parse is treated
like any other non-abort failure, i.e. retried rather than surfaced
immediately. -/
theorem c3_no_decode_validation (oracle : Nat → AttemptOutcome) (status : Nat)
    (v : Json) (e : JsError) :
    (oracle 0 = .response true status (.ok v) →
      fetchWithRetry oracle 0 = ⟨.ok v, [], 1⟩) ∧
    (oracle 0 = .response true status (.error e) → e.name ≠ "AbortError" →
      2 ≤ (fetchWithRetry oracle 0).attempts) := by
  constructor
  · intro h
    exact fetch_ok_step oracle 0 v (by rw [h]; rfl)
  · intro h hn
    rw [fetch_retry_step oracle 0 e (by decide) (by rw [h]; rfl) hn]
    have := fetch_attempts_pos oracle (0 + 1)
    show 2 ≤ (fetchWithRetry oracle (0 + 1)).attempts + 1
    omega

/-- Claim C3 amended, witness: the wrong-shape endpoint's body is returned
as the result. -/
theorem c3_no_decode_validation_witness :
    fetchWithRetry wrongShapeOracle 0 = ⟨.ok (.str "oops"), [], 1⟩ :=
  (c3_no_decode_validation wrongShapeOracle 200 (.str "oops")
    ⟨"SyntaxError", "Unexpected token"⟩).1 rfl

/-! ### Map lemmas and the cache claims -/

/-- After `Map.set`, `Map.get` of the same key returns the new entry. -/
theorem mapGet_mapSet_self (c : Cache) (k : String) (e : CacheEntry) :
    mapGet (mapSet c k e) k = some e := by
  induction c with
  | nil => simp [mapSet, mapGet]
  | cons kv rest ih =>
      by_cases h : kv.1 = k
      · simp [mapSet, mapGet, h]
      · simp [mapSet, mapGet, h, ih]

/-- After `Map.delete`, `Map.get` of the same key returns nothing. -/
theorem mapGet_mapDelete_self (c : Cache) (k : String) :
    mapGet (mapDelete c k) k = none := by
  induction c with
  | nil => simp [mapDelete, mapGet]
  | cons kv rest ih =>
      by_cases h : kv.1 = k
      · simpa [mapDelete, List.filter_cons, h] using ih
      · simpa [mapDelete, List.filter_cons, h, mapGet] using ih

/-- Claim C5: a value cached with ttl `T` at time `t0` is returned unchanged
by every lookup at a time `t < t0 + T`; a lookup at `t ≥ t0 + T` treats it
as absent and removes it; and the periodic sweep keeps exactly the entries
that do not satisfy the same expiry predicate `expiresAt ≤ now`. -/
theorem c5_cache_ttl (c : Cache) (key : String) (data : Json) (T t0 t : Nat) :
    (t < t0 + T → (cacheGet (cacheSet c key data T t0) key t).1 = some data) ∧
    (t0 + T ≤ t →
      (cacheGet (cacheSet c key data T t0) key t).1 = none ∧
      mapGet (cacheGet (cacheSet c key data T t0) key t).2 key = none) ∧
    (∀ kv, kv ∈ cleanCache c t ↔ kv ∈ c ∧ ¬ kv.2.expiresAt ≤ t) := by
  refine ⟨?_, ?_, ?_⟩
  · intro h
    have hne : ¬ (t0 + T ≤ t) := by omega
    simp [cacheGet, cacheSet, mapGet_mapSet_self, hne]
  · intro h
    constructor
    · simp [cacheGet, cacheSet, mapGet_mapSet_self, h]
    · simp only [cacheGet, cacheSet, mapGet_mapSet_self, h, if_pos]
      exact mapGet_mapDelete_self _ key
  · intro kv
    simp [cleanCache, List.mem_filter]

/-- Claim C5 witness: a lookup five time units after caching with ttl ten
still sees the value. -/
theorem c5_cache_ttl_witness :
    (cacheGet (cacheSet [] "k" Json.null 10 0) "k" 5).1 = some Json.null :=
  (c5_cache_ttl [] "k" Json.null 10 0 5).1 (by omega)

/-- Claim C4: `clearCache('movieInfo')` removes nothing, because movie-info
entries are cached under keys of the form `movie_<id>` and no such key
starts with the string `movieInfo`.  On a cache holding the movie-info
entry for movie 42, the call leaves the cache unchanged and the entry is
still retrievable, contradicting the claim that `clearCache(k)` removes
every entry of kind `k`. -/
theorem c4_clearCache_movieInfo_noop :
    clearCache [(movieCacheKey "42", ⟨.str "info", 0, 1000000⟩)] "movieInfo"
      = [(movieCacheKey "42", ⟨.str "info", 0, 1000000⟩)] ∧
    (cacheGet (clearCache [(movieCacheKey "42", ⟨.str "info", 0, 1000000⟩)] "movieInfo")
        (movieCacheKey "42") 1).1 = some (.str "info") :=
  ⟨rfl, rfl⟩

/-! ### Deduplication (claim C1) -/

/-- The first `getLiveStreams` caller on a fresh service issues the upstream
call and registers the pending promise. -/
theorem startGetLiveStreams_first (category_id : Option String) (now : Nat) :
    startGetLiveStreams ⟨[], [], []⟩ category_id now
      = (.newCall ("pending_" ++ streamsCacheKey category_id),
         ⟨[], ["pending_" ++ streamsCacheKey category_id], [streamsCacheKey category_id]⟩) := by
  simp [startGetLiveStreams, cacheGet, mapGet, startFetchStreams]

/-- While the cache is empty and the pending promise is registered, every
further `getLiveStreams` caller joins it and changes nothing. -/
theorem startGetLiveStreams_joins (category_id : Option String) (now : Nat) (s : SvcState)
    (hc : s.cache = [])
    (hp : ("pending_" ++ streamsCacheKey category_id) ∈ s.pending) :
    startGetLiveStreams s category_id now
      = (.joined ("pending_" ++ streamsCacheKey category_id), s) := by
  obtain ⟨c, p, u⟩ := s
  simp only at hc
  subst hc
  simp [startGetLiveStreams, cacheGet, mapGet, startFetchStreams, hp]

/-- Iterating the joining step. -/
theorem runStarts_joins (category_id : Option String) (now : Nat) (s : SvcState)
    (hc : s.cache = [])
    (hp : ("pending_" ++ streamsCacheKey category_id) ∈ s.pending) (m : Nat) :
    runStarts (fun st => startGetLiveStreams st category_id now) m s
      = (List.replicate m (.joined ("pending_" ++ streamsCacheKey category_id)), s) := by
  induction m with
  | zero => rfl
  | succ n ih =>
      simp [runStarts, startGetLiveStreams_joins category_id now s hc hp, ih,
        List.replicate_succ]

/-- Claim C1 counterexample: two concurrent `getEPG` callers for the same
channel and limit, with no cached value, issue two upstream calls — not
one — because `getEPG` has no in-flight deduplication. -/
theorem c1_counterexample :
    (runStarts (fun st => startGetEPG st "7" 24 0) 2 ⟨[], [], []⟩).2.upstream.length = 2 ∧
    (runStarts (fun st => startGetEPG st "7" 24 0) 2 ⟨[], [], []⟩).2.upstream.length ≠ 1 := by
  exact ⟨rfl, by decide⟩

/-- Claim C1 amended: only the live-stream list deduplicates; for N ≥ 2
concurrent `getLiveStreams` callers with the same logical key and no cached
value, exactly one upstream call is made; the first caller starts it, all
the others join the one registered pending promise, every caller receives
that promise's outcome, and settling the shared call (with a value or an
error) empties the pending registry. -/
theorem c1_dedup_streams_only (category_id : Option String) (now : Nat) (N : Nat)
    (hN : 2 ≤ N) :
    (runStarts (fun st => startGetLiveStreams st category_id now) N ⟨[], [], []⟩).2.upstream
        = [streamsCacheKey category_id] ∧
    (runStarts (fun st => startGetLiveStreams st category_id now) N ⟨[], [], []⟩).1
        = .newCall ("pending_" ++ streamsCacheKey category_id)
            :: List.replicate (N - 1) (.joined ("pending_" ++ streamsCacheKey category_id)) ∧
    (∀ settled : String → Except JsError Json,
      ∀ o ∈ (runStarts (fun st => startGetLiveStreams st category_id now) N ⟨[], [], []⟩).1,
        callerResult o settled = settled ("pending_" ++ streamsCacheKey category_id)) ∧
    (∀ outcome : Except JsError Json,
      (settleStreams
          (runStarts (fun st => startGetLiveStreams st category_id now) N ⟨[], [], []⟩).2
          (streamsCacheKey category_id) outcome now).pending = []) := by
  obtain ⟨n, rfl⟩ : ∃ n, N = n + 1 := ⟨N - 1, by omega⟩
  have hrun :
      runStarts (fun st => startGetLiveStreams st category_id now) (n + 1) ⟨[], [], []⟩
        = (.newCall ("pending_" ++ streamsCacheKey category_id)
            :: List.replicate n (.joined ("pending_" ++ streamsCacheKey category_id)),
           ⟨[], ["pending_" ++ streamsCacheKey category_id], [streamsCacheKey category_id]⟩) := by
    have hjoin := runStarts_joins category_id now
      ⟨[], ["pending_" ++ streamsCacheKey category_id], [streamsCacheKey category_id]⟩
      rfl (by simp) n
    simp [runStarts, startGetLiveStreams_first category_id now, hjoin]
  refine ⟨by rw [hrun], by rw [hrun]; simp, ?_, ?_⟩
  · intro settled o ho
    rw [hrun] at ho
    rcases List.mem_cons.1 ho with h | h
    · subst h; rfl
    · rw [List.eq_of_mem_replicate h]; rfl
  · intro outcome
    rw [hrun]
    cases outcome with
    | ok data => simp [settleStreams]
    | error e => simp [settleStreams]

/-- Claim C1 amended, witness: two concurrent `getLiveStreams` callers for
category 5 issue exactly one upstream call. -/
theorem c1_dedup_streams_only_witness :
    (runStarts (fun st => startGetLiveStreams st (some "5") 0) 2 ⟨[], [], []⟩).2.upstream
      = [streamsCacheKey (some "5")] :=
  (c1_dedup_streams_only (some "5") 0 2 (by omega)).1

/-! ### Progress-store claims -/

/-- Claim C7 counterexample: a write whose collection contains a malformed
entry (a non-object primitive) is not rejected — `saveAll` commits the
valid subset and silently drops the malformed entry, so the medium is
changed, not left unchanged, and the commit is applied selectively. -/
theorem c7_counterexample :
    saveAll [.obj ⟨"movie", "1", .finite 5, .finite 10, .finite 0⟩, .prim]
      = .stored [.obj ⟨"movie", "1", .finite 5, .finite 10, .finite 0⟩] ∧
    Item.prim ∉ getAll (saveAll [.obj ⟨"movie", "1", .finite 5, .finite 10, .finite 0⟩, .prim]) := by
  exact ⟨rfl, by decide⟩

/-- Claim C7 amended: every progress-store write validates each entry of the
collection and commits exactly the valid entries among the last
`MAX_ENTRIES` ones — malformed entries are silently dropped rather than the
commit being rejected — so the stored collection always consists of valid
entries drawn from the input and is bounded by `MAX_ENTRIES`. -/
theorem c7_saveAll_filters (data : List Item) :
    (∀ it ∈ getAll (saveAll data), validItem it = true) ∧
    (∀ it ∈ getAll (saveAll data), it ∈ data) ∧
    (getAll (saveAll data)).length ≤ MAX_ENTRIES := by
  refine ⟨?_, ?_, ?_⟩
  · intro it h
    exact (List.mem_filter.1 h).2
  · intro it h
    exact List.mem_of_mem_drop (List.mem_filter.1 h).1
  · calc (getAll (saveAll data)).length
        ≤ (data.drop (data.length - MAX_ENTRIES)).length := List.length_filter_le _ _
      _ ≤ MAX_ENTRIES := by
          rw [List.length_drop]
          omega

/-- Claim C7 amended, witness: a valid record committed through `saveAll` is
indeed valid. -/
theorem c7_saveAll_filters_witness :
    validItem (.obj ⟨"movie", "9", .finite 1, .finite 2, .finite 3⟩) = true :=
  (c7_saveAll_filters [.obj ⟨"movie", "9", .finite 1, .finite 2, .finite 3⟩]).1
    (.obj ⟨"movie", "9", .finite 1, .finite 2, .finite 3⟩) (by decide)

/-- Claim C8: saving position 120 for `('movie','42')` and reading it back
yields 120; saving 200 for the same key afterwards makes the same query
return 200, and the stored collection then holds a single record for the
key — the new value replaces the old record entirely. -/
theorem c8_progress_round_trip (t1 t2 : Int) :
    saveProgress Medium.empty "movie" "42" (.finite 120) (.finite 3600) t1
      = .ok (.stored [.obj ⟨"movie", "42", .finite 120, .finite 3600, .finite t1⟩]) ∧
    getProgress (.stored [.obj ⟨"movie", "42", .finite 120, .finite 3600, .finite t1⟩])
        "movie" "42" = .finite 120 ∧
    saveProgress (.stored [.obj ⟨"movie", "42", .finite 120, .finite 3600, .finite t1⟩])
        "movie" "42" (.finite 200) (.finite 3600) t2
      = .ok (.stored [.obj ⟨"movie", "42", .finite 200, .finite 3600, .finite t2⟩]) ∧
    getProgress (.stored [.obj ⟨"movie", "42", .finite 200, .finite 3600, .finite t2⟩])
        "movie" "42" = .finite 200 :=
  ⟨rfl, rfl, rfl, rfl⟩

/-- Claim C9 counterexample: `NaN` is a JavaScript number, so
`saveProgress('movie','1', NaN, 10)` passes the `typeof` guard, and
`Math.max(0, NaN)` is `NaN`, so the stored record's position is `NaN` —
which is not `≥ 0` (the comparison is false for `NaN`) — and a later read
even returns it. -/
theorem c9_counterexample :
    saveProgress Medium.empty "movie" "1" .nan (.finite 10) 0
      = .ok (.stored [.obj ⟨"movie", "1", .nan, .finite 10, .finite 0⟩]) ∧
    nonNegNum JsNum.nan = false ∧
    getProgress (.stored [.obj ⟨"movie", "1", .nan, .finite 10, .finite 0⟩]) "movie" "1"
      = JsNum.nan := by
  exact ⟨rfl, rfl, rfl⟩

/-- Claim C9 amended: whenever `saveProgress` succeeds, the record it
appends carries `Math.max(0, position)` and `Math.max(0, duration)` and is
committed to the medium; for every non-`NaN` input these clamped values are
`≥ 0` (negative inputs are clamped to 0), while a `NaN` input is stored as
`NaN`. -/
theorem c9_save_progress_clamps (m : Medium) (type id : String)
    (position duration : JsNum) (now : Int) (m2 : Medium)
    (htype : type = "movie" ∨ type = "series")
    (h : saveProgress m type id position duration now = .ok m2) :
    Item.obj ⟨type, id, jsMax0 position, jsMax0 duration, .finite now⟩ ∈ getAll m2 ∧
    (position ≠ .nan → nonNegNum (jsMax0 position) = true) ∧
    (duration ≠ .nan → nonNegNum (jsMax0 duration) = true) := by
  refine ⟨?_, ?_, ?_⟩
  · cases hr : removeFirstMatch (getAll m) type id with
    | error e => simp [saveProgress, hr] at h
    | ok data =>
        have hm2 : m2
            = saveAll (data ++ [.obj ⟨type, id, jsMax0 position, jsMax0 duration, .finite now⟩]) := by
          simpa [saveProgress, hr] using h.symm
        subst hm2
        have hlen : (data ++ [Item.obj ⟨type, id, jsMax0 position, jsMax0 duration, .finite now⟩]).length
            - MAX_ENTRIES ≤ data.length := by
          simp [MAX_ENTRIES]
        refine List.mem_filter.2 ⟨?_, ?_⟩
        · rw [List.drop_append_of_le_length hlen]
          exact List.mem_append_right _ (List.mem_singleton_self _)
        · rcases htype with h | h <;> simp [validItem, h]
  · intro hp
    cases position with
    | nan => exact absurd rfl hp
    | finite q => simp [jsMax0, nonNegNum]; omega
  · intro hd
    cases duration with
    | nan => exact absurd rfl hd
    | finite q => simp [jsMax0, nonNegNum]; omega

/-- Claim C9 amended, witness: saving position −5 stores the clamped value
0, which is non-negative. -/
theorem c9_save_progress_clamps_witness :
    Item.obj ⟨"movie", "7", jsMax0 (.finite (-5)), jsMax0 (.finite 10), .finite 0⟩
        ∈ getAll (.stored [.obj ⟨"movie", "7", .finite 0, .finite 10, .finite 0⟩]) ∧
    nonNegNum (jsMax0 (.finite (-5))) = true := by
  have H := c9_save_progress_clamps Medium.empty "movie" "7" (.finite (-5)) (.finite 10) 0
    (.stored [.obj ⟨"movie", "7", .finite 0, .finite 10, .finite 0⟩])
    (Or.inl rfl) (by rfl)
  exact ⟨H.1, H.2.1 (by decide)⟩

/-- Claim C10: `getWatchProgress` never fails the caller: for every state of
the durable medium (including an absent, corrupt or malformed store) and
every input, it returns either the clamped position of the first matching
record or the value 0 — absence, an invalid id, and every storage read
error all degrade to 0 instead of propagating an exception. -/
theorem c10_get_watch_progress_total (m : Medium) (type id : String) :
    (∃ p : ProgressRec, id ≠ "" ∧ findMatch (getAll m) type id = .ok (some p) ∧
        getWatchProgress m type id = jsMax0 p.position) ∨
    getWatchProgress m type id = .finite 0 := by
  by_cases hid : id = ""
  · right
    simp [getWatchProgress, getProgress, getProgressInner, hid]
  · cases hf : findMatch (getAll m) type id with
    | error e =>
        right
        simp [getWatchProgress, getProgress, getProgressInner, hid, hf]
    | ok o =>
        cases o with
        | none =>
            right
            simp [getWatchProgress, getProgress, getProgressInner, hid, hf]
        | some p =>
            left
            exact ⟨p, hid, rfl, by simp [getWatchProgress, getProgress, getProgressInner, hid, hf]⟩

end TabarekIPTV
